import Mathlib

/-!
Shallow embedding of the minicap-socket ADB layer.

The definitions below translate, case by case, the Python sources:
  - `src/core/adb.py` (`_ADB.cmd`, `_ADB.get_status`, `_ADB.shell`,
    `_ADB.forward`, `_ADB._local_in_forwards`,
    `_ADB.get_available_forward_local`, `_Device.get_display_info`)
  - `src/adb.py` (`_Minicap.screencap` banner/frame state machine,
    `_Minicap.get_display_info`)
Python ints are unbounded, so Nat/Int carry them directly; Python
exceptions become explicit result constructors; the decoded stdout and
stderr of a child process, and the returncode, are inputs to the embedded
functions.
-/

/-- Error value of class AdbError in core/error.py, constructed in the
source as AdbError(stdout, stderr, cmds). -/
structure AdbError where
  stdout : String
  stderr : String
  cmds : List String
deriving DecidableEq

/-- Embedding of `_ADB.cmd` (src/core/adb.py, lines 146-183), after the
child process has finished and stdout/stderr have been decoded.  The
source raises AdbError(stdout, stderr, cmds) exactly when
`proc.returncode > 0` and `skip_error` is not set; otherwise it returns
stdout. -/
def cmd (returncode : Int) (skip_error : Bool) (stdout stderr : String)
    (cmds : List String) : Except AdbError String :=
  if returncode > 0 then
    if skip_error then Except.ok stdout
    else Except.error { stdout := stdout, stderr := stderr, cmds := cmds }
  else Except.ok stdout

/-- Substring test on character lists: does the haystack contain the
needle as a contiguous sublist?  (Embeds the Python `in` operator on
strings.) -/
def hasSubstr (needle : List Char) : List Char → Bool
  | [] => needle.isEmpty
  | c :: t => needle.isPrefixOf (c :: t) || hasSubstr needle t

/-- Python `pat in hay` for strings. -/
def containsStr (hay pat : String) : Bool :=
  hasSubstr pat.data hay.data

/-- Embedding of `_ADB.get_status` (src/core/adb.py, lines 230-246): on
returncode 0 return the stripped stdout, else return None when
"not found" occurs in stderr, else raise AdbError(stdout, stderr,
['get-state']). -/
def get_status (returncode : Int) (stdout stderr : String) :
    Except AdbError (Option String) :=
  if returncode = 0 then Except.ok (some stdout.trim)
  else if containsStr stderr "not found" then Except.ok none
  else Except.error { stdout := stdout, stderr := stderr, cmds := ["get-state"] }

/-- Python str.rstrip(): drop trailing whitespace. -/
def pyRstrip (s : String) : String :=
  ⟨(s.data.reverse.dropWhile Char.isWhitespace).reverse⟩

/-- Decimal digits to a natural number (most significant first). -/
def digitsToNat (l : List Char) : Nat :=
  l.foldl (fun a c => a * 10 + (c.toNat - 48)) 0

/-- Embedding of the regular-expression match
re.match with pattern (.*)---(N)---$ where N is one or more decimal
digits, DOTALL, greedy first group, used by `_ADB.shell`
(src/core/adb.py, line 284).  The match succeeds exactly when the string
ends in three dashes, preceded by a nonempty maximal digit run, preceded
by another three dashes; the first group is everything before those, the
second group is the digit run. -/
def parseMarker (s : String) : Option (String × Nat) :=
  let r := s.data.reverse
  if (['-', '-', '-'] : List Char).isPrefixOf r then
    let t := r.drop 3
    let ds := t.takeWhile Char.isDigit
    if ds = [] then none
    else if (['-', '-', '-'] : List Char).isPrefixOf (t.drop ds.length) then
      some (⟨((t.drop ds.length).drop 3).reverse⟩, digitsToNat ds.reverse)
    else none
  else none

/-- Outcome of `_ADB.shell` (src/core/adb.py, lines 278-301).  The
source contains the statement raise logger.error(...); loguru's
logger.error returns None, and raising None is a TypeError, so neither
branch can surface an AdbError or a returncode to the caller. -/
inductive ShellOutcome where
  | ok (stdout : String)
  | warnOk (stdout : String)
  | typeErrorRaised
deriving DecidableEq

/-- Argument list `_ADB.shell` hands to raw_shell: the exit-code marker
`; echo ---$?---` is appended exactly when sdk_version < 25
(src/core/adb.py, line 282). -/
def shellCmds (sdk : Int) (c : List String) : List String :=
  if sdk < 25 then c ++ [";", "echo", "---$?---"] else c

/-- The sdk_version < 25 branch of `_ADB.shell`, given the string
raw_shell returned for the marker-augmented command. -/
def shell_lt25 (rawOut : String) : ShellOutcome :=
  match parseMarker (pyRstrip rawOut) with
  | none => ShellOutcome.warnOk (pyRstrip rawOut)
  | some (stdout, rc) =>
    if rc > 0 then ShellOutcome.typeErrorRaised else ShellOutcome.ok stdout

/-- The sdk_version >= 25 branch of `_ADB.shell`, given the outcome of
raw_shell: an AdbError is caught and re-raised as raise
logger.error(...), which raises TypeError. -/
def shell_ge25 (raw : Except AdbError String) : ShellOutcome :=
  match raw with
  | Except.ok out => ShellOutcome.ok out
  | Except.error _ => ShellOutcome.typeErrorRaised

/-- Embedding of `_ADB.shell`: rawOutLt is what raw_shell returns for
the marker-augmented command (consulted only when sdk < 25), rawGe the
outcome of raw_shell on the plain command (consulted only when
sdk >= 25). -/
def shell (sdk : Int) (rawOutLt : String) (rawGe : Except AdbError String) :
    ShellOutcome :=
  if sdk < 25 then shell_lt25 rawOutLt else shell_ge25 rawGe

/-- One entry of `adb forward --list` as parsed by `_ADB.get_forwards`
(src/core/adb.py, lines 482-500): the pair of the local endpoint
(Python key 'local', a Lean keyword, hence the field name loc) and the
remote endpoint. -/
structure FwdEntry where
  loc : String
  remote : String
deriving DecidableEq

/-- Truthiness-plus-equality test the source performs per entry:
`if local: if value['local'] == local`.  None (and only None) is passed
for an absent criterion, so Option models the argument. -/
def optMatches (v : String) : Option String → Bool
  | some s => decide (v = s)
  | none => false

/-- Scan of `_ADB._local_in_forwards` (src/core/adb.py, lines 352-367):
first index whose entry matches the local criterion or, failing that on
the same entry, the remote criterion; none when no entry matches
(the source returns (False, None)). -/
def localInForwardsAux (lo re : Option String) : List FwdEntry → Option Nat
  | [] => none
  | e :: t =>
    if optMatches e.loc lo then some 0
    else if optMatches e.remote re then some 0
    else (localInForwardsAux lo re t).map (fun i => i + 1)

/-- `_ADB._local_in_forwards` over the live forward list l. -/
def localInForwards (l : List FwdEntry) (lo re : Option String) : Option Nat :=
  localInForwardsAux lo re l

/-- State visible to the forward manager: the adb server's live forward
table (what `forward --list` reports) plus the log of forward commands
this engine has issued. -/
structure BridgeState where
  forwards : List FwdEntry
  issued : List (List String)
deriving DecidableEq

/-- The argv `_ADB.forward` issues (src/core/adb.py, lines 322-325). -/
def fwdCmd (no_rebind : Bool) (lo re : String) : List String :=
  ["forward"] ++ (if no_rebind then ["--no-rebind"] else []) ++ [lo, re]

/-- Embedding of `_ADB.forward` (src/core/adb.py, lines 309-330): issue
the bridge forward command only when `_local_in_forwards(local, remote)`
finds nothing; otherwise only log.  The effect of the issued command on
the live table is modelled from the spec (section 6): the bridge
registers the mapping, and `forward --list` subsequently reports it
(the command is only issued when no entry carries this local, so
`--no-rebind` cannot fail in this model). -/
def forward (st : BridgeState) (lo re : String) (no_rebind : Bool) :
    BridgeState :=
  if (localInForwards st.forwards (some lo) (some re)).isSome then st
  else
    { forwards := st.forwards ++ [{ loc := lo, remote := re }],
      issued := st.issued ++ [fwdCmd no_rebind lo re] }

/-- Embedding of `_ADB.get_available_forward_local`
(src/core/adb.py, lines 332-350) with the successive values of
random.randint(11111, 20000) supplied as a list: return the first draw
whose transient TCP bind succeeds, retrying on each failure; none when
the draws run out (the source would keep recursing). -/
def get_available_forward_local (bindable : Nat → Bool) : List Nat → Option Nat
  | [] => none
  | p :: rest =>
    if bindable p then some p else get_available_forward_local bindable rest

/-- Call tree of the unbounded recursion in
`_ADB.get_available_forward_local`, drawing the i-th random port from
the stream rand: the call at depth i terminates either because its draw
binds, or because the next depth terminates. -/
inductive PortTerminates (rand : Nat → Nat) (bindable : Nat → Bool) : Nat → Prop
  | done (i : Nat) : bindable (rand i) = true → PortTerminates rand bindable i
  | step (i : Nat) : bindable (rand i) = false →
      PortTerminates rand bindable (i + 1) → PortTerminates rand bindable i

/-- Dictionary returned by `_Device.get_display_info`
(src/core/adb.py, lines 765-775).  getPhysicalDisplayInfo may return an
empty dict, hence the optional width/height/density; orientation comes
from getDisplayOrientation, rotation is written as orientation * 90;
getMaxXY may leave either maximum None. -/
structure DisplayInfo where
  width : Option Int
  height : Option Int
  density : Option ℚ
  orientation : Int
  rotation : Int
  max_x : Option Int
  max_y : Option Int
deriving DecidableEq

/-- Embedding of `_Device.get_display_info`. -/
def get_display_info (phys : Option (Int × Int × ℚ)) (orientation : Int)
    (max_x max_y : Option Int) : DisplayInfo :=
  { width := phys.map (fun p => p.1)
    height := phys.map (fun p => p.2.1)
    density := phys.map (fun p => p.2.2)
    orientation := orientation
    rotation := orientation * 90
    max_x := max_x
    max_y := max_y }

/-- Dictionary produced by `_Minicap.get_display_info`
(src/adb.py, lines 504-530): the JSON emitted by minicap -i carries
width, height and rotation; the method adds orientation = rotation / 90
(true division, modelled in the rationals, exact for the rotations
0, 90, 180, 270 where Python float arithmetic is also exact) and, when
`wm size` parses, moves the JSON dimensions to physical_width and
physical_height. -/
structure MncDisplayInfo where
  width : Int
  height : Int
  rotation : ℚ
  orientation : ℚ
  physical_width : Option Int
  physical_height : Option Int
  dpi : Option Int
deriving DecidableEq

/-- Embedding of `_Minicap.get_display_info`. -/
def minicap_get_display_info (jw jh : Int) (jr : ℚ)
    (wm_size : Option (Int × Int)) (wm_dpi : Option Int) : MncDisplayInfo :=
  let orientation := jr / 90
  match wm_size with
  | some wh =>
    { width := wh.1, height := wh.2, rotation := jr, orientation := orientation,
      physical_width := some jw, physical_height := some jh, dpi := wm_dpi }
  | none =>
    { width := jw, height := jh, rotation := jr, orientation := orientation,
      physical_width := none, physical_height := none, dpi := wm_dpi }

/-- The banner dictionary `_Minicap.screencap` initializes
(src/adb.py, lines 555-565), all fields 0. -/
structure Banner where
  version : Nat
  length : Nat
  pid : Nat
  realWidth : Nat
  realHeight : Nat
  virtualWidth : Nat
  virtualHeight : Nat
  orientation : Nat
  quirks : Nat
deriving DecidableEq

/-- Mutable locals of the `_Minicap.screencap` read loop
(src/adb.py, lines 550-554).  frameBody starts as the empty Python str
and becomes a bytes object only in the chunk-splitting branch
(line 610); isStr records which of the two it currently is. -/
structure CapState where
  readBannerBytes : Nat
  bannerLength : Nat
  readFrameBytes : Nat
  frameBodyLengthRemaining : Nat
  frameBody : List Nat
  isStr : Bool
  banner : Banner
deriving DecidableEq

/-- Exceptions the read loop can raise.  protocolError never occurs in
the source; it is the exception the specification prescribes for a
missing JPEG SOI and is included so that statements about it can be
written down. -/
inductive PyExc where
  | systemExit
  | typeError
  | indexError
  | protocolError
deriving DecidableEq

/-- Result of one `_Minicap.screencap` call on a byte stream: a returned
frame (the socket is closed just before the return, line 606), a raised
exception, or pending when the supplied stream ends first. -/
inductive CapResult where
  | frame (img : List Nat)
  | exc (e : PyExc)
  | pending (st : CapState)
deriving DecidableEq

/-- Per-byte banner handling of the screencap loop
(src/adb.py, lines 577-588): byte 0 is the version, byte 1 the banner
length (also re-bounding the loop), bytes 2-5 each overwrite pid, byte
23 sets quirks; every other offset, 6-22 included, is skipped. -/
def bannerStep (st : CapState) (b : Nat) : CapState :=
  if st.readBannerBytes = 0 then
    { st with banner := { st.banner with version := b },
              readBannerBytes := st.readBannerBytes + 1 }
  else if st.readBannerBytes = 1 then
    { st with banner := { st.banner with length := b },
              bannerLength := b,
              readBannerBytes := st.readBannerBytes + 1 }
  else if 2 ≤ st.readBannerBytes ∧ st.readBannerBytes ≤ 5 then
    { st with banner := { st.banner with pid := b },
              readBannerBytes := st.readBannerBytes + 1 }
  else if st.readBannerBytes = 23 then
    { st with banner := { st.banner with quirks := b },
              readBannerBytes := st.readBannerBytes + 1 }
  else { st with readBannerBytes := st.readBannerBytes + 1 }

/-- The SOI test of the completed frame body (src/adb.py, line 600):
frameBody[0] is compared with 0xff first (IndexError on an empty body),
then frameBody[1] with 0xd8 (IndexError on a one-byte body); a mismatch
executes exit(), which raises SystemExit; otherwise the decoded frame is
returned. -/
def soiCheck : List Nat → CapResult
  | [] => CapResult.exc PyExc.indexError
  | [b0] =>
    if b0 ≠ 0xff then CapResult.exc PyExc.systemExit
    else CapResult.exc PyExc.indexError
  | b0 :: b1 :: rest =>
    if b0 ≠ 0xff then CapResult.exc PyExc.systemExit
    else if b1 ≠ 0xd8 then CapResult.exc PyExc.systemExit
    else CapResult.frame (b0 :: b1 :: rest)

/-- Inner cursor loop of `_Minicap.screencap` (src/adb.py, lines
576-613) over one received chunk.  In the frame-completion branch the
source first evaluates frameBody + chunk[cursor : cursor + remaining];
when frameBody is still the initial str this concatenation of str and
bytes raises TypeError before any check runs. -/
def processChunkAux : List Nat → CapState → CapResult
  | [], st => CapResult.pending st
  | b :: rest, st =>
    if st.readBannerBytes < st.bannerLength then
      processChunkAux rest (bannerStep st b)
    else if st.readFrameBytes < 4 then
      processChunkAux rest
        { st with
          frameBodyLengthRemaining :=
            st.frameBodyLengthRemaining + (b <<< (st.readFrameBytes * 8)),
          readFrameBytes := st.readFrameBytes + 1 }
    else if st.frameBodyLengthRemaining ≤ (b :: rest).length then
      if st.isStr then CapResult.exc PyExc.typeError
      else soiCheck (st.frameBody ++ (b :: rest).take st.frameBodyLengthRemaining)
    else
      CapResult.pending
        { st with
          frameBody := st.frameBody ++ (b :: rest),
          isStr := false,
          frameBodyLengthRemaining :=
            st.frameBodyLengthRemaining - (b :: rest).length,
          readFrameBytes := st.readFrameBytes + (b :: rest).length }

/-- Outer recv loop of `_Minicap.screencap`: feed chunks until the call
returns or raises; an empty chunk is skipped (the source continues). -/
def screencapRead (st : CapState) : List (List Nat) → CapResult
  | [] => CapResult.pending st
  | c :: cs =>
    match processChunkAux c st with
    | CapResult.pending st2 => screencapRead st2 cs
    | r => r

/-- Initial state of the screencap loop (src/adb.py, lines 550-565). -/
def capInit0 : CapState :=
  { readBannerBytes := 0, bannerLength := 2, readFrameBytes := 0,
    frameBodyLengthRemaining := 0, frameBody := [], isStr := true,
    banner := { version := 0, length := 0, pid := 0, realWidth := 0,
                realHeight := 0, virtualWidth := 0, virtualHeight := 0,
                orientation := 0, quirks := 0 } }

/-- One `_Minicap.screencap` call on the given sequence of received
chunks. -/
def screencap (chunks : List (List Nat)) : CapResult :=
  screencapRead capInit0 chunks

/-- The 24-byte banner of the specification, scenario 3:
version 1, length 24, pid 0, real 1920x1080, virtual 1920x1080,
orientation 1, quirks 0, little-endian. -/
def banner24 : List Nat :=
  [0x01, 0x18, 0x00, 0x00, 0x00, 0x00, 0x80, 0x07, 0x00, 0x00,
   0x38, 0x04, 0x00, 0x00, 0x80, 0x07, 0x00, 0x00, 0x38, 0x04,
   0x00, 0x00, 0x01, 0x00]

/-- A random stream that always draws port 11112. -/
def rand0 : Nat → Nat := fun _ => 11112

/-- A bind predicate under which only port 11111 is free. -/
def bindable0 : Nat → Bool := fun p => decide (p = 11111)

/-- Loop state reached after the banner, a frame length of 5 and the
first two body bytes 0x00 0x00 (split off into an earlier chunk, so
frameBody is already a bytes object). -/
def capStateBody00 : CapState :=
  { readBannerBytes := 24, bannerLength := 24, readFrameBytes := 6,
    frameBodyLengthRemaining := 3, frameBody := [0, 0], isStr := false,
    banner := { version := 1, length := 24, pid := 0, realWidth := 0,
                realHeight := 0, virtualWidth := 0, virtualHeight := 0,
                orientation := 0, quirks := 0 } }

/-- Helper: `_local_in_forwards` finds nothing exactly when no listed
entry carries the requested local and none carries the requested
remote. -/
theorem localInForwards_none_iff (l : List FwdEntry) (L R : String) :
    localInForwards l (some L) (some R) = none ↔
      ∀ e ∈ l, e.loc ≠ L ∧ e.remote ≠ R := by
  induction l with
  | nil => simp [localInForwards, localInForwardsAux]
  | cons e t ih =>
    simp only [localInForwards, localInForwardsAux, optMatches] at ih ⊢
    by_cases h1 : e.loc = L
    · simp [h1]
    · by_cases h2 : e.remote = R
      · simp [h1, h2]
      · simp only [h1, h2, decide_eq_true_eq, if_neg, List.mem_cons]
        constructor
        · intro hm
          have ht : localInForwardsAux (some L) (some R) t = none := by
            cases hc : localInForwardsAux (some L) (some R) t with
            | none => rfl
            | some i => rw [hc] at hm; simp at hm
          intro x hx
          rcases hx with hx | hx
          · subst hx; exact ⟨h1, h2⟩
          · exact ih.1 ht x hx
        · intro hall
          have : localInForwardsAux (some L) (some R) t = none :=
            ih.2 (fun x hx => hall x (Or.inr hx))
          simp [this]

/-- Claim C3 (corrected), amendment: `_ADB.cmd` raises
AdbError(stdout, stderr, argv) exactly when the returncode is strictly
positive and skip_error is not set; a returncode of 0 or below (a
signal-killed child reports a negative returncode) or skip_error makes
it return stdout without raising. -/
theorem cmd_error_cases (rc : Int) (skip : Bool) (so se : String)
    (cs : List String) :
    (rc > 0 → skip = false →
      cmd rc skip so se cs =
        Except.error { stdout := so, stderr := se, cmds := cs })
    ∧ (rc ≤ 0 → cmd rc skip so se cs = Except.ok so)
    ∧ (skip = true → cmd rc skip so se cs = Except.ok so) := by
  refine ⟨?_, ?_, ?_⟩
  · intro h hs
    simp [cmd, h, hs]
  · intro h
    rw [cmd, if_neg (by omega)]
  · intro hs
    by_cases h : rc > 0
    · simp [cmd, h, hs]
    · simp [cmd, h]

/-- Claim C3 witness: a positive returncode without skip_error raises. -/
theorem cmd_error_cases_witness :
    cmd 1 false "o" "e" ["forward"] =
      Except.error { stdout := "o", stderr := "e", cmds := ["forward"] } :=
  (cmd_error_cases 1 false "o" "e" ["forward"]).1 (by decide) rfl

/-- Claim C3 counterexample: a returncode different from 0 need not
raise — the source only tests returncode > 0, so a negative returncode
(child killed by a signal) returns stdout without raising. -/
theorem cmd_negative_returncode_no_raise :
    (-9 : Int) ≠ 0 ∧ cmd (-9) false "out" "err" ["get-state"] = Except.ok "out" :=
  ⟨by decide, rfl⟩

/-- Claim C6 (confirmed): `_ADB.get_status` returns the stripped state
string on returncode 0, returns None when a non-zero exit has
"not found" in stderr, and raises AdbError on any other non-zero
exit. -/
theorem get_status_cases (rc : Int) (so se : String) :
    (rc = 0 → get_status rc so se = Except.ok (some so.trim))
    ∧ (rc ≠ 0 → containsStr se "not found" = true →
        get_status rc so se = Except.ok none)
    ∧ (rc ≠ 0 → containsStr se "not found" = false →
        get_status rc so se =
          Except.error { stdout := so, stderr := se, cmds := ["get-state"] }) := by
  refine ⟨?_, ?_, ?_⟩
  · intro h; simp [get_status, h]
  · intro h hc; simp [get_status, h, hc]
  · intro h hc; simp [get_status, h, hc]

/-- Claim C6 witness: an absent device (non-zero exit, "not found" in
stderr) yields None rather than an error. -/
theorem get_status_cases_witness :
    get_status 1 "" "error: device emulator-5554 not found" = Except.ok none :=
  (get_status_cases 1 "" "error: device emulator-5554 not found").2.1
    (by decide) (by decide)

/-- Claim C5 (code_bug): the marker channel is appended exactly for
sdk < 25, but on a non-zero parsed returncode the source executes raise
logger.error(...), raising a TypeError that carries no returncode, and
for sdk >= 25 the AdbError from the bridge is caught and replaced by
the same raise of None instead of propagating. -/
theorem shell_exit_code_actual :
    shellCmds 22 ["false"] = ["false", ";", "echo", "---$?---"]
    ∧ shellCmds 26 ["false"] = ["false"]
    ∧ shell 22 "---1---\n" (Except.ok "") = ShellOutcome.typeErrorRaised
    ∧ shell 26 ""
        (Except.error { stdout := "", stderr := "adb shell error",
                        cmds := ["shell", "false"] })
      = ShellOutcome.typeErrorRaised :=
  ⟨rfl, rfl, rfl, rfl⟩

/-- Claim C4 (confirmed): when neither the local nor the remote of a
fresh pair is listed, the second of two successive forward(local,
remote) calls with no_rebind is a no-op (the state, hence the issued
command log and the live list, is unchanged), and the live list then
holds the pair exactly once. -/
theorem forward_twice_noop (st : BridgeState) (L R : String)
    (hL : ∀ e ∈ st.forwards, e.loc ≠ L)
    (hR : ∀ e ∈ st.forwards, e.remote ≠ R) :
    forward (forward st L R true) L R true = forward st L R true
    ∧ (forward (forward st L R true) L R true).forwards.countP
        (fun e => decide (e = { loc := L, remote := R })) = 1 := by
  have hnone : localInForwards st.forwards (some L) (some R) = none :=
    (localInForwards_none_iff st.forwards L R).2 (fun e he => ⟨hL e he, hR e he⟩)
  have h1 : forward st L R true =
      { forwards := st.forwards ++ [{ loc := L, remote := R }],
        issued := st.issued ++ [fwdCmd true L R] } := by
    simp [forward, hnone]
  have h2 : (localInForwards (st.forwards ++ [{ loc := L, remote := R }])
      (some L) (some R)).isSome = true := by
    cases hcase : localInForwards (st.forwards ++ [{ loc := L, remote := R }])
        (some L) (some R) with
    | none =>
      have := ((localInForwards_none_iff _ L R).1 hcase)
        { loc := L, remote := R } (by simp)
      simp at this
    | some i => rfl
  have h3 : forward (forward st L R true) L R true = forward st L R true := by
    rw [h1]
    simp [forward, h2]
  refine ⟨h3, ?_⟩
  rw [h3, h1]
  have hz : st.forwards.countP
      (fun e => decide (e = { loc := L, remote := R })) = 0 := by
    rw [List.countP_eq_zero]
    intro a ha
    simp only [decide_eq_true_eq]
    intro hEq
    exact hL a ha (by rw [hEq])
  simp [List.countP_append, List.countP_cons, hz]

/-- Claim C4 witness: forwarding a fresh pair twice from an empty table
leaves a single listing and the second call changes nothing. -/
theorem forward_twice_noop_witness :
    forward (forward ⟨[], []⟩ "tcp:11111" "localabstract:minicap" true)
        "tcp:11111" "localabstract:minicap" true
      = forward ⟨[], []⟩ "tcp:11111" "localabstract:minicap" true
    ∧ (forward (forward ⟨[], []⟩ "tcp:11111" "localabstract:minicap" true)
        "tcp:11111" "localabstract:minicap" true).forwards.countP
        (fun e => decide (e = { loc := "tcp:11111",
                                remote := "localabstract:minicap" })) = 1 :=
  forward_twice_noop ⟨[], []⟩ "tcp:11111" "localabstract:minicap"
    (by simp) (by simp)

/-- Claim C10 (confirmed): `_ADB.forward` issues the bridge forward
command exactly when no listed entry carries the given local and none
carries the given remote; consequently, after a fresh forward(L, R), a
later forward(L2, R) with a different local issues nothing and creates
no mapping for L2. -/
theorem forward_issues_iff (st : BridgeState) (L R : String) (nrb : Bool) :
    ((forward st L R nrb).issued ≠ st.issued ↔
      (∀ e ∈ st.forwards, e.loc ≠ L) ∧ (∀ e ∈ st.forwards, e.remote ≠ R))
    ∧ ∀ L2 : String, L2 ≠ L →
        (∀ e ∈ st.forwards, e.loc ≠ L) → (∀ e ∈ st.forwards, e.remote ≠ R) →
        forward (forward st L R true) L2 R true = forward st L R true := by
  constructor
  · by_cases hlk : localInForwards st.forwards (some L) (some R) = none
    · have hRHS := (localInForwards_none_iff st.forwards L R).1 hlk
      constructor
      · intro _
        exact ⟨fun e he => (hRHS e he).1, fun e he => (hRHS e he).2⟩
      · intro _
        simp only [forward, hlk, Option.isSome_none, Bool.false_eq_true,
          if_false]
        intro h
        have := congrArg List.length h
        simp at this
    · constructor
      · intro hne
        exfalso
        apply hne
        have hs : (localInForwards st.forwards (some L) (some R)).isSome = true := by
          cases hcase : localInForwards st.forwards (some L) (some R) with
          | none => exact absurd hcase hlk
          | some i => rfl
        simp [forward, hs]
      · intro hfresh
        exact absurd ((localInForwards_none_iff st.forwards L R).2
          (fun e he => ⟨hfresh.1 e he, hfresh.2 e he⟩)) hlk
  · intro L2 hL2 hL hR
    have hnone : localInForwards st.forwards (some L) (some R) = none :=
      (localInForwards_none_iff st.forwards L R).2
        (fun e he => ⟨hL e he, hR e he⟩)
    have h1 : forward st L R true =
        { forwards := st.forwards ++ [{ loc := L, remote := R }],
          issued := st.issued ++ [fwdCmd true L R] } := by
      simp [forward, hnone]
    have h2 : (localInForwards (st.forwards ++ [{ loc := L, remote := R }])
        (some L2) (some R)).isSome = true := by
      cases hcase : localInForwards (st.forwards ++ [{ loc := L, remote := R }])
          (some L2) (some R) with
      | none =>
        have := ((localInForwards_none_iff _ L2 R).1 hcase)
          { loc := L, remote := R } (by simp)
        simp at this
      | some i => rfl
    rw [h1]
    simp [forward, h2]

/-- Claim C10 witness: after forwarding (tcp:11111, minicap) on an empty
table, forwarding tcp:11112 to the same remote changes nothing. -/
theorem forward_issues_iff_witness :
    forward (forward ⟨[], []⟩ "tcp:11111" "localabstract:minicap" true)
        "tcp:11112" "localabstract:minicap" true
      = forward ⟨[], []⟩ "tcp:11111" "localabstract:minicap" true :=
  (forward_issues_iff ⟨[], []⟩ "tcp:11111" "localabstract:minicap" true).2
    "tcp:11112" (by decide) (by simp) (by simp)

/-- Claim C7 (confirmed): whenever the draws come from
random.randint(11111, 20000) — each in the inclusive range — a port
returned by `_ADB.get_available_forward_local` lies in [11111, 20000]
and is one whose transient bind succeeded. -/
theorem reserve_port_in_range (bindable : Nat → Bool) (draws : List Nat)
    (hr : ∀ p ∈ draws, 11111 ≤ p ∧ p ≤ 20000) (q : Nat)
    (hq : get_available_forward_local bindable draws = some q) :
    11111 ≤ q ∧ q ≤ 20000 ∧ bindable q = true := by
  induction draws with
  | nil => simp [get_available_forward_local] at hq
  | cons p rest ih =>
    simp only [get_available_forward_local] at hq
    by_cases hb : bindable p
    · rw [if_pos hb] at hq
      injection hq with hpq
      subst hpq
      exact ⟨(hr p (by simp)).1, (hr p (by simp)).2, hb⟩
    · rw [if_neg hb] at hq
      exact ih (fun x hx => hr x (List.mem_cons_of_mem _ hx)) hq

/-- Claim C7 witness: with only 11111 bindable, the draw sequence
11112, 11111 yields 11111, in range and bindable. -/
theorem reserve_port_in_range_witness :
    11111 ≤ 11111 ∧ 11111 ≤ 20000 ∧ decide ((11111 : Nat) = 11111) = true :=
  reserve_port_in_range (fun p => decide (p = 11111)) [11112, 11111]
    (by decide) 11111 rfl

/-- Claim C8 (corrected), amendment: the retry loop of
`_ADB.get_available_forward_local` terminates whenever its random draw
sequence eventually selects a bindable port (so a port freed later is
picked up once drawn); the mere existence of a bindable port in
[11111, 20000] does not bound the retries, since the source draws a
fresh random port each time without excluding failed ones. -/
theorem reserve_port_terminates_of_hit (rand : Nat → Nat)
    (bindable : Nat → Bool) (h : ∃ i, bindable (rand i) = true) :
    PortTerminates rand bindable 0 := by
  obtain ⟨i, hi⟩ := h
  have key : ∀ n i0, bindable (rand (i0 + n)) = true →
      PortTerminates rand bindable i0 := by
    intro n
    induction n with
    | zero => intro i0 h0; exact PortTerminates.done i0 h0
    | succ n ih =>
      intro i0 h0
      cases hcb : bindable (rand i0) with
      | true => exact PortTerminates.done i0 hcb
      | false =>
        refine PortTerminates.step i0 hcb (ih (i0 + 1) ?_)
        rw [show i0 + 1 + n = i0 + (n + 1) from by omega]
        exact h0
  refine key i 0 ?_
  rw [Nat.zero_add]
  exact hi

/-- Claim C8 witness: a stream that draws the free port at once
terminates. -/
theorem reserve_port_terminates_of_hit_witness :
    PortTerminates (fun _ => 11111) bindable0 0 :=
  reserve_port_terminates_of_hit (fun _ => 11111) bindable0 ⟨0, by decide⟩

/-- Claim C8 counterexample: port 11111 is bindable and in range, yet
the draw stream that always picks 11112 never terminates, refuting
termination from mere existence of a bindable port. -/
theorem reserve_port_may_not_terminate :
    (11111 ≤ 11111 ∧ 11111 ≤ 20000 ∧ bindable0 11111 = true)
    ∧ ¬ PortTerminates rand0 bindable0 0 := by
  refine ⟨by decide, ?_⟩
  have hall : ∀ i, ¬ PortTerminates rand0 bindable0 i := by
    intro i hi
    induction hi with
    | done j hb => simp [bindable0, rand0] at hb
    | step j hb ht ih => exact ih
  exact hall 0

/-- Claim C9 (confirmed): every DisplayInfo built by
`_Device.get_display_info` satisfies rotation = orientation * 90 by
construction, and every dictionary built by
`_Minicap.get_display_info` satisfies it as well, since orientation is
set to rotation / 90 (exactly, for the rotations 0, 90, 180, 270 the
agent emits). -/
theorem rotation_eq_orientation_mul_90 :
    (∀ (phys : Option (Int × Int × ℚ)) (ori : Int) (mx my : Option Int),
      (get_display_info phys ori mx my).rotation
        = (get_display_info phys ori mx my).orientation * 90)
    ∧ (∀ (jw jh : Int) (jr : ℚ) (ws : Option (Int × Int)) (wd : Option Int),
        jr ∈ ([0, 90, 180, 270] : List ℚ) →
        (minicap_get_display_info jw jh jr ws wd).rotation
          = (minicap_get_display_info jw jh jr ws wd).orientation * 90) := by
  constructor
  · intro phys ori mx my
    rfl
  · intro jw jh jr ws wd _hmem
    cases ws with
    | some wh =>
      simp only [minicap_get_display_info]
      exact (div_mul_cancel₀ jr (by norm_num)).symm
    | none =>
      simp only [minicap_get_display_info]
      exact (div_mul_cancel₀ jr (by norm_num)).symm

/-- Claim C9 witness: the minicap path at rotation 90. -/
theorem rotation_eq_orientation_mul_90_witness :
    (minicap_get_display_info 1080 1920 90 none none).rotation
      = (minicap_get_display_info 1080 1920 90 none none).orientation * 90 :=
  rotation_eq_orientation_mul_90.2 1080 1920 90 none none (by norm_num)

/-- Claim C1 (corrected), amendment: when a frame completes and its
first two bytes are not 0xFF, 0xD8, `_Minicap.screencap` rejects it by
executing exit(), raising SystemExit (not a ProtocolError, a class the
source does not define) and leaving the socket unclosed, and no frame is
returned; when the completing concatenation still finds frameBody as the
initial str (whole body inside one chunk), a TypeError is raised even
before the check, again returning no frame. -/
theorem screencap_soi_reject (st : CapState) (chunk : List Nat)
    (hb : ¬ st.readBannerBytes < st.bannerLength)
    (hf : ¬ st.readFrameBytes < 4)
    (hlen : st.frameBodyLengthRemaining ≤ chunk.length)
    (hne : chunk ≠ []) :
    (st.isStr = true → processChunkAux chunk st = CapResult.exc PyExc.typeError)
    ∧ (∀ b0 b1 tl, st.isStr = false →
        st.frameBody ++ chunk.take st.frameBodyLengthRemaining = b0 :: b1 :: tl →
        (b0 ≠ 0xff ∨ b1 ≠ 0xd8) →
        processChunkAux chunk st = CapResult.exc PyExc.systemExit) := by
  obtain ⟨b, rest, rfl⟩ : ∃ b rest, chunk = b :: rest := by
    cases chunk with
    | nil => exact absurd rfl hne
    | cons b rest => exact ⟨b, rest, rfl⟩
  constructor
  · intro hstr
    simp only [processChunkAux]
    rw [if_neg hb, if_neg hf, if_pos hlen, if_pos hstr]
  · intro b0 b1 tl hstr heq hd
    simp only [processChunkAux]
    rw [if_neg hb, if_neg hf, if_pos hlen, if_neg (by simp [hstr]), heq]
    rcases hd with h | h
    · simp [soiCheck, h]
    · by_cases h0 : b0 = 0xff
      · simp [soiCheck, h0, h]
      · simp [soiCheck, h0]

/-- Claim C1 witness: in the state capStateBody00 (body bytes so far
0x00 0x00, three bytes remaining) the chunk [1, 2, 3] completes the
frame and the rejection raises SystemExit. -/
theorem screencap_soi_reject_witness :
    processChunkAux [1, 2, 3] capStateBody00 = CapResult.exc PyExc.systemExit :=
  (screencap_soi_reject capStateBody00 [1, 2, 3] (by decide) (by decide)
    (by decide) (by decide)).2 0 0 [1, 2, 3] rfl rfl (Or.inl (by decide))

/-- Claim C1 counterexample: feeding the banner, the frame length 5 and
a body beginning 0x00 0x00 (split across two chunks) makes screencap
raise SystemExit via exit() — not the ProtocolError the claim names. -/
theorem screencap_bad_soi_raises_system_exit :
    screencap [banner24 ++ [5, 0, 0, 0] ++ [0, 0], [1, 2, 3]]
      = CapResult.exc PyExc.systemExit
    ∧ CapResult.exc PyExc.systemExit ≠ CapResult.exc PyExc.protocolError :=
  ⟨rfl, by decide⟩

/-- Claim C2 (code_bug): running the screencap banner loop over the
specification's 24-byte banner yields version 1 and length 24, but the
parser never reads offsets 6-22 (and overwrites pid per byte), so
realWidth, realHeight, virtualWidth, virtualHeight and orientation all
remain 0 instead of 1920, 1080, 1920, 1080 and 1. -/
theorem banner_parse_actual :
    processChunkAux banner24 capInit0 =
      CapResult.pending
        { readBannerBytes := 24, bannerLength := 24, readFrameBytes := 0,
          frameBodyLengthRemaining := 0, frameBody := [], isStr := true,
          banner := { version := 1, length := 24, pid := 0, realWidth := 0,
                      realHeight := 0, virtualWidth := 0, virtualHeight := 0,
                      orientation := 0, quirks := 0 } } :=
  rfl
